import Mathlib

/-
  Verification development for the dreamdeck control-surface bridge.

  The source has two generations of the same design:
  * main.rs: trait-object getters (Sink, Source, PropertyMatchSink,
    FirstValidTarget, AlwaysNone, AlwaysError) resolving to a transient
    Target (DeviceSink | AppSink | DeviceSource), plus the Deck dispatcher
    (flush_values_to_board, knob_update, btn_press, handle_midi_message);
    deck.rs repeats the Deck against the same resolved-target shape.
  * target.rs: a closed enum Target (StaticSink | StaticSource |
    SinkWithProperty | Any | All) whose operations resolve and act in one
    call.

  Both are embedded below.  The audio subsystem is modelled as a record of
  query results (AudioState); mutations issued against it are recorded as
  AudioAction values; outbound control-surface messages are (opcode, index,
  value) triples.  Rust panics (unwrap on Err, todo macros) are modelled by
  the PResult.panicked outcome.  The f32 arithmetic used by the volume
  paths is modelled exactly: every finite f32 is a dyadic rational, and the
  program only meets magnitudes below 2^24, where IEEE-754 binary32
  round-to-nearest-even is implemented verbatim on dyadic rationals.
-/

namespace Dreamdeck

abbrev Err := String

/-- Outcome of a fallible operation that can also abort the process:
ok mirrors Result.Ok, failure mirrors Result.Err, and panicked marks a
Rust panic (unwrap on an Err, or a todo placeholder). -/
inductive PResult (α : Type) where
  | ok : α → PResult α
  | failure : Err → PResult α
  | panicked : PResult α
deriving DecidableEq

/-- pulse DeviceInfo as used by the program: index, optional name,
per-channel volume vector, mute flag. -/
structure DeviceInfo where
  index : Nat
  name : Option String
  volume : List Nat
  mute : Bool
deriving DecidableEq

/-- pulse ApplicationInfo as used by the program: index, property bag,
per-channel volume vector, mute flag. -/
structure ApplicationInfo where
  index : Nat
  proplist : List (String × String)
  volume : List Nat
  mute : Bool
deriving DecidableEq

/-- pa_cvolume_avg: channel average of a volume vector (0 when empty). -/
def cvAvg (v : List Nat) : Nat := if v.length = 0 then 0 else v.sum / v.length

/-- ChannelVolumes.set(len, x): overwrite every channel with x, keeping the
channel count. -/
def cvSet (v : List Nat) (x : Nat) : List Nat := v.map (fun _ => x)

/-- Proplist.get_str: first value stored under the given key. -/
def propGetStr (pl : List (String × String)) (key : String) : Option String :=
  (pl.find? (fun kv => kv.fst == key)).map (fun kv => kv.snd)

/-- The audio subsystem at one instant, as the record of answers its
queries return and of the results its fallible mutations report.  Every
controller call the program makes is one field. -/
structure AudioState where
  sinkDeviceByIndex : Nat → Except Err DeviceInfo
  sourceDeviceByIndex : Nat → Except Err DeviceInfo
  listApplications : Except Err (List ApplicationInfo)
  sinkAppByIndex : Nat → Except Err ApplicationInfo
  sinkDefaultDevice : Except Err DeviceInfo
  sourceDefaultDevice : Except Err DeviceInfo
  setSinkInputVolumeResult : Nat → Except Err Unit
  setAppMuteResult : Nat → Except Err Unit
  setSinkDefaultResult : String → Except Err Unit
  setSourceDefaultResult : String → Except Err Unit

/-- Audio-subsystem mutations the program can issue, recorded in order. -/
inductive AudioAction where
  | setSinkDeviceVolume : Nat → List Nat → AudioAction
  | setSourceDeviceVolume : Nat → List Nat → AudioAction
  | setSinkInputVolume : Nat → List Nat → AudioAction
  | setSinkDeviceMute : Nat → Bool → AudioAction
  | setSourceDeviceMute : Nat → Bool → AudioAction
  | setAppMute : Nat → Bool → AudioAction
  | setDefaultSinkDevice : String → AudioAction
  | setDefaultSourceDevice : String → AudioAction
deriving DecidableEq

/-- find_app (PropertyMatchSink::find_app in main.rs, Target::find_app in
target.rs): list all application streams and return the first whose
property bag has the expected value under the property key. -/
def findApp (property value : String) (s : AudioState) :
    Except Err (Option ApplicationInfo) :=
  match s.listApplications with
  | .error e => .error e
  | .ok apps =>
    .ok (apps.find? (fun app =>
      ((propGetStr app.proplist property).filter (fun v => value == v)).isSome))

/-- The transient resolved target of main.rs / deck.rs (enum Target there):
a concrete live entity fetched by a getter. -/
inductive RTarget where
  | deviceSink : DeviceInfo → RTarget
  | appSink : ApplicationInfo → RTarget
  | deviceSource : DeviceInfo → RTarget
deriving DecidableEq

/-- Target::is_muted of main.rs. -/
def RTarget.isMuted : RTarget → Bool
  | .deviceSink d => d.mute
  | .deviceSource d => d.mute
  | .appSink a => a.mute

/-- Target::volume of main.rs: the resolved entity volume vector. -/
def RTarget.volume : RTarget → List Nat
  | .deviceSink d => d.volume
  | .deviceSource d => d.volume
  | .appSink a => a.volume

/-- The closed universe of Targetable implementations of main.rs:
Sink(u32), Source(u32), PropertyMatchSink(property, value),
FirstValidTarget(children), AlwaysNone, AlwaysError. -/
inductive Getter where
  | sinkIdx : Nat → Getter
  | sourceIdx : Nat → Getter
  | propertyMatchSink : String → String → Getter
  | firstValid : List Getter → Getter
  | alwaysNone : Getter
  | alwaysError : Getter

mutual

/-- Targetable::get_target for each implementation of main.rs.  The
FirstValidTarget case is the lazy map/filter/next pipeline of the source:
the first child returning Err or Ok(Some) decides the result, Ok(None)
children fall through, and an empty remainder gives Ok(None). -/
def getTarget (g : Getter) (s : AudioState) : Except Err (Option RTarget) :=
  match g with
  | .sinkIdx idx =>
    match s.sinkDeviceByIndex idx with
    | .error e => .error e
    | .ok d => .ok (some (.deviceSink d))
  | .sourceIdx idx =>
    match s.sourceDeviceByIndex idx with
    | .error e => .error e
    | .ok d => .ok (some (.deviceSource d))
  | .propertyMatchSink p v =>
    match findApp p v s with
    | .error e => .error e
    | .ok appOpt => .ok (appOpt.map (fun app => .appSink app))
  | .firstValid gs => firstValidGetTarget gs s
  | .alwaysNone => .ok none
  | .alwaysError => .error "AlwaysError always errors"

/-- FirstValidTarget::get_target unrolled over the child list. -/
def firstValidGetTarget (gs : List Getter) (s : AudioState) :
    Except Err (Option RTarget) :=
  match gs with
  | [] => .ok none
  | g :: rest =>
    match getTarget g s with
    | .error e => .error e
    | .ok (some t) => .ok (some t)
    | .ok none => firstValidGetTarget rest s

end

/-! ### Exact model of the f32 arithmetic on the volume paths

Every finite f32 is a dyadic rational; the program only ever meets
magnitudes below 2^24, where no overflow or subnormal behaviour occurs.  A
value is carried as a pair (m, e) denoting m / 2^e with m, e natural.
f32ofRatio rounds a positive rational a / b to the nearest representable
f32 (24 significant bits, ties to even), exactly as IEEE-754 binary32
round-to-nearest-even does on this range. -/

/-- Structural-recursion floor of log2 (enough fuel for any value the
program computes). -/
def log2fuel : Nat → Nat → Nat
  | 0, _ => 0
  | fuel + 1, n => if n ≤ 1 then 0 else log2fuel fuel (n / 2) + 1

/-- Floor of log2 on Nat. -/
def nlog2 (n : Nat) : Nat := log2fuel 128 n

/-- Nearest integer to q / b, ties to even. -/
def roundHalfEvenDiv (q b : Nat) : Nat :=
  let n := q / b
  let r := q % b
  if 2 * r < b then n
  else if b < 2 * r then n + 1
  else if n % 2 = 0 then n else n + 1

/-- Round the positive rational a / b to the nearest 24-bit-significand
dyadic, ties to even: the f32 rounding of a / b on the range the program
uses. -/
def f32ofRatio (a b : Nat) : Nat × Nat :=
  if a = 0 then (0, 0)
  else
    let p1 := nlog2 a
    let p2 := nlog2 b
    let eAdj := if a * 2 ^ p2 < b * 2 ^ p1 then 1 else 0
    let s := 23 + p2 + eAdj - p1
    (roundHalfEvenDiv (a * 2 ^ s) b, s)

/-- f32 multiplication (exact product, then one rounding). -/
def f32mul (x y : Nat × Nat) : Nat × Nat := f32ofRatio (x.1 * y.1) (2 ^ (x.2 + y.2))

/-- f32 division (exact quotient, then one rounding). -/
def f32div (x y : Nat × Nat) : Nat × Nat := f32ofRatio (x.1 * 2 ^ y.2) (y.1 * 2 ^ x.2)

/-- Rust `as u32` on a nonnegative f32 below 2^32: truncation toward
zero. -/
def f32truncU32 (x : Nat × Nat) : Nat := x.1 / 2 ^ x.2

/-- The rational value of a dyadic pair. -/
def dyadicVal (x : Nat × Nat) : ℚ := (x.1 : ℚ) / 2 ^ x.2

/-- target.rs Target::set_volume word: Volume((new_vol * (Volume::NORMAL.0
- 1) as f32) as u32) with NORMAL = 0x10000, so the multiplier is
65535.0. -/
def setVolumeWord (v : Nat × Nat) : Nat := f32truncU32 (f32mul v (65535, 0))

/-- deck.rs knob_update normalization: value as f32 / 127.0. -/
def knobF32 (value : Nat) : Nat × Nat := f32div (value, 0) (127, 0)

/-- deck.rs knob_update word: Volume((new_vol * Volume::NORMAL.0 as f32)
as u32), multiplier 65536.0. -/
def knobVolumeWord (value : Nat) : Nat := f32truncU32 (f32mul (knobF32 value) (65536, 0))

/-- deck.rs flush display renormalization: ((vol.0 * 127) /
Volume::NORMAL.0) as u8 in u32 arithmetic, then the u8 cast. -/
def dispVal (w : Nat) : Nat := ((w * 127) / 65536) % 256

/-! ### The closed Target enum of target.rs -/

/-- target.rs Target: StaticSink(u32), StaticSource(u32),
SinkWithProperty(property, value), Any(children), All(children). -/
inductive TTarget where
  | staticSink : Nat → TTarget
  | staticSource : Nat → TTarget
  | sinkWithProperty : String → String → TTarget
  | anyOf : List TTarget → TTarget
  | allOf : List TTarget → TTarget

mutual

/-- target.rs Target::volume: resolve and report the channel-average
volume.  Query errors propagate with the question-mark operator; the All
branch is a todo placeholder that panics. -/
def TTarget.volume (t : TTarget) (s : AudioState) : PResult (Option Nat) :=
  match t with
  | .staticSink idx =>
    match s.sinkDeviceByIndex idx with
    | .error e => .failure e
    | .ok d => .ok (some (cvAvg d.volume))
  | .staticSource idx =>
    match s.sourceDeviceByIndex idx with
    | .error e => .failure e
    | .ok d => .ok (some (cvAvg d.volume))
  | .sinkWithProperty p v =>
    match findApp p v s with
    | .error e => .failure e
    | .ok appOpt => .ok (appOpt.map (fun a => cvAvg a.volume))
  | .anyOf ts => TTarget.volumeAny ts s
  | .allOf _ => .panicked

/-- The Any loop of Target::volume: first Some short-circuits, errors
propagate, all None gives None. -/
def TTarget.volumeAny (ts : List TTarget) (s : AudioState) : PResult (Option Nat) :=
  match ts with
  | [] => .ok none
  | t :: rest =>
    match TTarget.volume t s with
    | .failure e => .failure e
    | .panicked => .panicked
    | .ok (some v) => .ok (some v)
    | .ok none => TTarget.volumeAny rest s

end

mutual

/-- target.rs Target::set_volume.  The StaticSink branch writes the sink
device; the StaticSource branch, as written in the source, reads
sink.get_app_by_index(idx) and issues sink.set_sink_input_volume(idx),
both against the sink controller; SinkWithProperty writes the matched
application stream; All panics. -/
def TTarget.setVolume (t : TTarget) (s : AudioState) (newVol : Nat × Nat) :
    List AudioAction × PResult (Option Unit) :=
  match t with
  | .staticSink idx =>
    match s.sinkDeviceByIndex idx with
    | .error e => ([], .failure e)
    | .ok d =>
      ([.setSinkDeviceVolume idx (cvSet d.volume (setVolumeWord newVol))],
        .ok (some ()))
  | .staticSource idx =>
    match s.sinkAppByIndex idx with
    | .error e => ([], .failure e)
    | .ok a =>
      match s.setSinkInputVolumeResult idx with
      | .error e =>
        ([.setSinkInputVolume idx (cvSet a.volume (setVolumeWord newVol))], .failure e)
      | .ok _ =>
        ([.setSinkInputVolume idx (cvSet a.volume (setVolumeWord newVol))],
          .ok (some ()))
  | .sinkWithProperty p v =>
    match findApp p v s with
    | .error e => ([], .failure e)
    | .ok none => ([], .ok none)
    | .ok (some app) =>
      match s.setSinkInputVolumeResult app.index with
      | .error e =>
        ([.setSinkInputVolume app.index (cvSet app.volume (setVolumeWord newVol))],
          .failure e)
      | .ok _ =>
        ([.setSinkInputVolume app.index (cvSet app.volume (setVolumeWord newVol))],
          .ok (some ()))
  | .anyOf ts => TTarget.setVolumeAny ts s newVol
  | .allOf _ => ([], .panicked)

/-- The Any loop of Target::set_volume. -/
def TTarget.setVolumeAny (ts : List TTarget) (s : AudioState) (newVol : Nat × Nat) :
    List AudioAction × PResult (Option Unit) :=
  match ts with
  | [] => ([], .ok none)
  | t :: rest =>
    match TTarget.setVolume t s newVol with
    | (acts, .failure e) => (acts, .failure e)
    | (acts, .panicked) => (acts, .panicked)
    | (acts, .ok (some v)) => (acts, .ok (some v))
    | (acts, .ok none) =>
      let r := TTarget.setVolumeAny rest s newVol
      (acts ++ r.1, r.2)

end

mutual

/-- target.rs Target::muted.  Every query in this function is followed by
.unwrap(), so a query error aborts the process instead of surfacing as a
Result error. -/
def TTarget.muted (t : TTarget) (s : AudioState) : PResult (Option Bool) :=
  match t with
  | .staticSink idx =>
    match s.sinkDeviceByIndex idx with
    | .error _ => .panicked
    | .ok d => .ok (some d.mute)
  | .staticSource idx =>
    match s.sourceDeviceByIndex idx with
    | .error _ => .panicked
    | .ok d => .ok (some d.mute)
  | .sinkWithProperty p v =>
    match findApp p v s with
    | .error _ => .panicked
    | .ok appOpt => .ok (appOpt.map (fun a => a.mute))
  | .anyOf ts => TTarget.mutedAny ts s
  | .allOf _ => .panicked

/-- The Any loop of Target::muted: the child result is unwrapped, so a
child error is also a panic. -/
def TTarget.mutedAny (ts : List TTarget) (s : AudioState) : PResult (Option Bool) :=
  match ts with
  | [] => .ok none
  | t :: rest =>
    match TTarget.muted t s with
    | .failure _ => .panicked
    | .panicked => .panicked
    | .ok (some v) => .ok (some v)
    | .ok none => TTarget.mutedAny rest s

end

mutual

/-- target.rs Target::toggle_muted. -/
def TTarget.toggleMuted (t : TTarget) (s : AudioState) :
    List AudioAction × PResult (Option Unit) :=
  match t with
  | .staticSink idx =>
    match s.sinkDeviceByIndex idx with
    | .error e => ([], .failure e)
    | .ok d => ([.setSinkDeviceMute idx (!d.mute)], .ok (some ()))
  | .staticSource idx =>
    match s.sourceDeviceByIndex idx with
    | .error e => ([], .failure e)
    | .ok d => ([.setSourceDeviceMute idx (!d.mute)], .ok (some ()))
  | .sinkWithProperty p v =>
    match findApp p v s with
    | .error e => ([], .failure e)
    | .ok none => ([], .ok none)
    | .ok (some app) =>
      match s.sinkAppByIndex app.index with
      | .error e => ([], .failure e)
      | .ok a =>
        match s.setAppMuteResult app.index with
        | .error e => ([.setAppMute app.index (!a.mute)], .failure e)
        | .ok _ => ([.setAppMute app.index (!a.mute)], .ok (some ()))
  | .anyOf ts => TTarget.toggleMutedAny ts s
  | .allOf _ => ([], .panicked)

/-- The Any loop of Target::toggle_muted. -/
def TTarget.toggleMutedAny (ts : List TTarget) (s : AudioState) :
    List AudioAction × PResult (Option Unit) :=
  match ts with
  | [] => ([], .ok none)
  | t :: rest =>
    match TTarget.toggleMuted t s with
    | (acts, .failure e) => (acts, .failure e)
    | (acts, .panicked) => (acts, .panicked)
    | (acts, .ok (some v)) => (acts, .ok (some v))
    | (acts, .ok none) =>
      let r := TTarget.toggleMutedAny rest s
      (acts ++ r.1, r.2)

end

/-! ### The Deck dispatcher (deck.rs / the Deck impl of main.rs) -/

/-- The three binding kinds, each wrapping one getter. -/
inductive DBinding where
  | volumeControl : Getter → DBinding
  | muteToggle : Getter → DBinding
  | defaultSelect : Getter → DBinding

/-- Wire opcode 0xBA: continuous control change. -/
def KNOB_UPDATE : Nat := 0xBA

/-- Wire opcode 0x9A: discrete control down. -/
def BTN_DOWN : Nat := 0x9A

/-- Wire opcode 0x8A: discrete control up. -/
def BTN_UP : Nat := 0x8A

/-- An outbound or inbound 3-byte surface message: (opcode, control index,
value). -/
abbrev Midi := Nat × Nat × Nat

/-- HashMap::get on the binding table, modelled over an association
list. -/
def lookupBinding (bindings : List (Nat × DBinding)) (k : Nat) : Option DBinding :=
  (bindings.find? (fun kb => kb.fst == k)).map (fun kb => kb.snd)

/-- One iteration of the flush loop of Deck::flush_values_to_board: the
outbound messages for one (control, binding) pair, or the error that
aborts the cycle.  VolumeControl reports the renormalized channel average
(0 when unresolved), MuteToggle reports the mute flag as 0/1 on opcode
BTN_DOWN (0 when unresolved), DefaultSelect compares against the current
default device and emits 127/0 on opcode BTN_DOWN, but emits nothing at
all when unresolved. -/
def pollControl (s : AudioState) (control : Nat) (b : DBinding) :
    Except Err (List Midi) :=
  match b with
  | .volumeControl getter =>
    match getTarget getter s with
    | .ok (some target) => .ok [(KNOB_UPDATE, control, dispVal (cvAvg target.volume))]
    | .ok none => .ok [(KNOB_UPDATE, control, 0)]
    | .error e => .error e
  | .muteToggle getter =>
    match getTarget getter s with
    | .ok (some target) => .ok [(BTN_DOWN, control, if target.isMuted then 1 else 0)]
    | .ok none => .ok [(BTN_DOWN, control, 0)]
    | .error e => .error e
  | .defaultSelect getter =>
    match getTarget getter s with
    | .ok (some target) =>
      match target with
      | .deviceSink device =>
        match s.sinkDefaultDevice with
        | .error e => .error e
        | .ok dd =>
          .ok [(BTN_DOWN, control, if dd.index == device.index then 127 else 0)]
      | .deviceSource device =>
        match s.sourceDefaultDevice with
        | .error e => .error e
        | .ok dd =>
          .ok [(BTN_DOWN, control, if dd.index == device.index then 127 else 0)]
      | .appSink _ => .error "App sinks cannot be used for select bindings"
    | .error e => .error e
    | .ok none => .ok []

/-- Deck::flush_values_to_board over the binding table in iteration order:
emitted messages so far plus either completion or the error that aborted
the cycle (entries after the failing one are not processed). -/
def flushValuesToBoard (s : AudioState) :
    List (Nat × DBinding) → List Midi × Except Err Unit
  | [] => ([], .ok ())
  | (control, b) :: rest =>
    match pollControl s control b with
    | .error e => ([], .error e)
    | .ok msgs =>
      let r := flushValuesToBoard s rest
      (msgs ++ r.1, r.2)

/-- Deck::knob_update: outbound messages, issued audio mutations, and the
returned result.  An unbound knob is zeroed out with a corrective
KNOB_UPDATE message; a non-VolumeControl binding is a dispatch error; a
resolved DeviceSource write is a todo placeholder that panics. -/
def knobUpdate (s : AudioState) (bindings : List (Nat × DBinding))
    (knob value : Nat) : List Midi × List AudioAction × PResult Unit :=
  match lookupBinding bindings knob with
  | some (.volumeControl getter) =>
    match getTarget getter s with
    | .ok (some target) =>
      match target with
      | .deviceSink device =>
        ([], [.setSinkDeviceVolume device.index
                (cvSet device.volume (knobVolumeWord value))], .ok ())
      | .appSink app =>
        match s.setSinkInputVolumeResult app.index with
        | .error e =>
          ([], [.setSinkInputVolume app.index
                  (cvSet app.volume (knobVolumeWord value))], .failure e)
        | .ok _ =>
          ([], [.setSinkInputVolume app.index
                  (cvSet app.volume (knobVolumeWord value))], .ok ())
      | .deviceSource _ => ([], [], .panicked)
    | .ok none => ([], [], .ok ())
    | .error e => ([], [], .failure e)
  | some _ => ([], [], .failure "Only knobs can be bound to volume control")
  | none => ([(KNOB_UPDATE, knob, 0)], [], .ok ())

/-- Deck::btn_press: outbound messages, issued audio mutations, and the
returned result. -/
def btnPress (s : AudioState) (bindings : List (Nat × DBinding)) (btn : Nat) :
    List Midi × List AudioAction × PResult Unit :=
  match lookupBinding bindings btn with
  | some (.muteToggle getter) =>
    match getTarget getter s with
    | .ok (some target) =>
      match target with
      | .deviceSink device =>
        ([], [.setSinkDeviceMute device.index (!device.mute)], .ok ())
      | .deviceSource device =>
        ([], [.setSourceDeviceMute device.index (!device.mute)], .ok ())
      | .appSink app =>
        match s.setAppMuteResult app.index with
        | .error e => ([], [.setAppMute app.index (!app.mute)], .failure e)
        | .ok _ => ([], [.setAppMute app.index (!app.mute)], .ok ())
    | .error e => ([], [], .failure e)
    | .ok none => ([], [], .ok ())
  | some (.defaultSelect getter) =>
    match getTarget getter s with
    | .ok (some target) =>
      match target with
      | .deviceSink device =>
        match device.name with
        | none => ([], [], .failure "Default device must have name")
        | some nm =>
          match s.setSinkDefaultResult nm with
          | .error e => ([], [.setDefaultSinkDevice nm], .failure e)
          | .ok _ => ([], [.setDefaultSinkDevice nm], .ok ())
      | .deviceSource device =>
        match device.name with
        | none => ([], [], .failure "Default device must have name")
        | some nm =>
          match s.setSourceDefaultResult nm with
          | .error e => ([], [.setDefaultSourceDevice nm], .failure e)
          | .ok _ => ([], [.setDefaultSourceDevice nm], .ok ())
      | .appSink _ => ([], [], .failure "App sinks cannot be used for select bindings")
    | .error e => ([], [], .failure e)
    | .ok none => ([], [], .ok ())
  | some (.volumeControl _) =>
    ([], [], .failure "Buttons can not be bound to volume control")
  | none => ([], [], .ok ())

/-- Deck::handle_midi_message: decode the 3-byte message by opcode.
KNOB_UPDATE dispatches to knob_update, BTN_DOWN is ignored, BTN_UP
dispatches to btn_press, anything else is logged and ignored. -/
def handleMidiMessage (s : AudioState) (bindings : List (Nat × DBinding))
    (m : Midi) : List Midi × List AudioAction × PResult Unit :=
  if m.1 = KNOB_UPDATE then knobUpdate s bindings m.2.1 m.2.2
  else if m.1 = BTN_DOWN then ([], [], .ok ())
  else if m.1 = BTN_UP then btnPress s bindings m.2.1
  else ([], [], .ok ())

/-! ### Concrete audio-subsystem states used by witnesses and
counterexamples -/

/-- A sink device: index 5, named, stereo at half volume, muted. -/
def speakers : DeviceInfo :=
  { index := 5, name := some "speakers", volume := [32768, 32768], mute := true }

/-- An application stream: index 3, named Firefox in its property bag. -/
def firefoxApp : ApplicationInfo :=
  { index := 3, proplist := [("application.name", "Firefox")],
    volume := [100, 100], mute := false }

/-- A healthy audio subsystem exposing the speakers sink (also the default
sink) and the Firefox stream; every other query misses; mutations
succeed. -/
def sampleState : AudioState :=
  { sinkDeviceByIndex := fun n => if n == 5 then .ok speakers else .error "No such device"
    sourceDeviceByIndex := fun _ => .error "No such device"
    listApplications := .ok [firefoxApp]
    sinkAppByIndex := fun n => if n == 3 then .ok firefoxApp else .error "No such app"
    sinkDefaultDevice := .ok speakers
    sourceDefaultDevice := .error "No default source"
    setSinkInputVolumeResult := fun _ => .ok ()
    setAppMuteResult := fun _ => .ok ()
    setSinkDefaultResult := fun _ => .ok ()
    setSourceDefaultResult := fun _ => .ok () }

/-- A broken audio subsystem: every query and mutation reports a transient
error. -/
def errState : AudioState :=
  { sinkDeviceByIndex := fun _ => .error "transient query error"
    sourceDeviceByIndex := fun _ => .error "transient query error"
    listApplications := .error "transient query error"
    sinkAppByIndex := fun _ => .error "transient query error"
    sinkDefaultDevice := .error "transient query error"
    sourceDefaultDevice := .error "transient query error"
    setSinkInputVolumeResult := fun _ => .error "transient query error"
    setAppMuteResult := fun _ => .error "transient query error"
    setSinkDefaultResult := fun _ => .error "transient query error"
    setSourceDefaultResult := fun _ => .error "transient query error" }

/-! ### Claim theorems -/

/-- C2: the spec says every read/mutate operation surfaces audio-subsystem
query errors as a Failure to its caller, and the process continues.  The
code contradicts this for Target::muted: each of its query results is
unwrapped, so the StaticSink, StaticSource and SinkWithProperty branches
all abort the process when the underlying query errors.  The sibling
operation Target::volume on the same state shows the intended behaviour
(a returned Failure), making the unwraps a slip against the declared
Result signature. -/
theorem C2_muted_panics_on_query_error :
    TTarget.muted (.staticSink 1) errState = .panicked
  ∧ TTarget.muted (.staticSource 2) errState = .panicked
  ∧ TTarget.muted (.sinkWithProperty "application.name" "Firefox") errState = .panicked
  ∧ TTarget.volume (.staticSink 1) errState = .failure "transient query error"
  ∧ pollControl errState 34 (.muteToggle (.sourceIdx 2))
      = .error "transient query error" :=
  ⟨rfl, rfl, rfl, rfl, rfl⟩

/-- C3 counterexample: a DefaultSelect binding whose getter resolves to
NotFound emits no outbound message at all during a flush — the claimed
indicator-off message for control 32 does not exist, and the flush
completes normally. -/
theorem C3_counterexample :
    flushValuesToBoard sampleState [(32, .defaultSelect .alwaysNone)] = ([], .ok ()) :=
  rfl

/-- C3 amended: for every DefaultSelect binding whose Target resolves to
NotFound, the per-control display poll emits no outbound message for that
control (NotFound is rendered as silence, not as an indicator-off
message), and the flush cycle continues normally. -/
theorem C3_defaultSelect_notFound_silent (s : AudioState) (btn : Nat) (g : Getter)
    (h : getTarget g s = .ok none) :
    pollControl s btn (.defaultSelect g) = .ok [] := by
  simp [pollControl, h]

/-- C3 witness: the amended statement at the concrete state and binding of
the counterexample. -/
theorem C3_witness :
    pollControl sampleState 32 (.defaultSelect .alwaysNone) = .ok [] :=
  C3_defaultSelect_notFound_silent sampleState 32 .alwaysNone rfl

/-- C5: the spec says write_volume on a StaticDevice of Source kind acts
on the source device at idx.  The code instead reads
sink.get_app_by_index(idx) and issues sink.set_sink_input_volume(idx): the
mutation lands on the sink-input (application stream) with that index, via
the sink controller.  In the sample state the source device 3 does not
even exist — the sibling read operation Target::volume fails on it — yet
set_volume succeeds by mutating application stream 3. -/
theorem C5_staticSource_setVolume_targets_sink_input :
    TTarget.setVolume (.staticSource 3) sampleState (1, 1)
      = ([.setSinkInputVolume 3 [32767, 32767]], .ok (some ()))
  ∧ TTarget.volume (.staticSource 3) sampleState = .failure "No such device" :=
  ⟨rfl, rfl⟩

/-- C7: an inbound continuous-control message on an unbound index emits
exactly the corrective reset message, issues no audio mutation, and
returns success — both at knob_update and through
handle_midi_message. -/
theorem C7_unbound_knob_reset (s : AudioState) (bindings : List (Nat × DBinding))
    (k v : Nat) (h : lookupBinding bindings k = none) :
    knobUpdate s bindings k v = ([(KNOB_UPDATE, k, 0)], [], .ok ())
  ∧ handleMidiMessage s bindings (KNOB_UPDATE, k, v)
      = ([(KNOB_UPDATE, k, 0)], [], .ok ()) := by
  constructor
  · simp [knobUpdate, h]
  · simp [handleMidiMessage, knobUpdate, h]

/-- C7 witness: scenario C — inbound (0xBA, 7, 100) with index 7 unbound
yields outbound (0xBA, 7, 0), no mutation, success. -/
theorem C7_witness :
    knobUpdate sampleState [(11, .volumeControl (.sinkIdx 5))] 7 100
      = ([(0xBA, 7, 0)], [], .ok ())
  ∧ handleMidiMessage sampleState [(11, .volumeControl (.sinkIdx 5))] (0xBA, 7, 100)
      = ([(0xBA, 7, 0)], [], .ok ()) :=
  C7_unbound_knob_reset sampleState [(11, .volumeControl (.sinkIdx 5))] 7 100 rfl

/-- C8: a discrete (button) event on a VolumeControl binding and a
continuous (knob) event on a MuteToggle or DefaultSelect binding are
dispatch errors, with no outbound message and no audio mutation. -/
theorem C8_binding_kind_mismatch (s : AudioState) (bindings : List (Nat × DBinding))
    (k v : Nat) (g : Getter) :
    (lookupBinding bindings k = some (.volumeControl g) →
      btnPress s bindings k
        = ([], [], .failure "Buttons can not be bound to volume control"))
  ∧ (lookupBinding bindings k = some (.muteToggle g) →
      knobUpdate s bindings k v
        = ([], [], .failure "Only knobs can be bound to volume control"))
  ∧ (lookupBinding bindings k = some (.defaultSelect g) →
      knobUpdate s bindings k v
        = ([], [], .failure "Only knobs can be bound to volume control")) := by
  refine ⟨fun h => ?_, fun h => ?_, fun h => ?_⟩
  · simp [btnPress, h]
  · simp [knobUpdate, h]
  · simp [knobUpdate, h]

/-- C8 witness: a table binding 40 as VolumeControl, 41 as MuteToggle and
42 as DefaultSelect; the mismatched dispatches error without mutating. -/
theorem C8_witness :
    btnPress sampleState
      [(40, .volumeControl (.sinkIdx 5)), (41, .muteToggle (.sinkIdx 5)),
        (42, .defaultSelect (.sinkIdx 5))] 40
      = ([], [], .failure "Buttons can not be bound to volume control")
  ∧ knobUpdate sampleState
      [(40, .volumeControl (.sinkIdx 5)), (41, .muteToggle (.sinkIdx 5)),
        (42, .defaultSelect (.sinkIdx 5))] 41 10
      = ([], [], .failure "Only knobs can be bound to volume control")
  ∧ knobUpdate sampleState
      [(40, .volumeControl (.sinkIdx 5)), (41, .muteToggle (.sinkIdx 5)),
        (42, .defaultSelect (.sinkIdx 5))] 42 10
      = ([], [], .failure "Only knobs can be bound to volume control") :=
  ⟨(C8_binding_kind_mismatch sampleState
      [(40, .volumeControl (.sinkIdx 5)), (41, .muteToggle (.sinkIdx 5)),
        (42, .defaultSelect (.sinkIdx 5))] 40 10 (.sinkIdx 5)).1 rfl,
    (C8_binding_kind_mismatch sampleState
      [(40, .volumeControl (.sinkIdx 5)), (41, .muteToggle (.sinkIdx 5)),
        (42, .defaultSelect (.sinkIdx 5))] 41 10 (.sinkIdx 5)).2.1 rfl,
    (C8_binding_kind_mismatch sampleState
      [(40, .volumeControl (.sinkIdx 5)), (41, .muteToggle (.sinkIdx 5)),
        (42, .defaultSelect (.sinkIdx 5))] 42 10 (.sinkIdx 5)).2.2 rfl⟩

/-- C1: for FirstValidTarget (main.rs) and the Any composite of target.rs
with children A, B, C, over every audio state: a NotFound first child
falls through to the rest, a Failure from the first child is returned
immediately whatever the later children are, and three NotFound children
give NotFound. -/
theorem C1_firstValid_order_and_failfast (A B C : Getter) (TA TB TC : TTarget)
    (s : AudioState) :
    (getTarget A s = .ok none →
      getTarget (.firstValid [A, B, C]) s = getTarget (.firstValid [B, C]) s)
  ∧ (∀ e, getTarget A s = .error e →
      getTarget (.firstValid [A, B, C]) s = .error e)
  ∧ (getTarget A s = .ok none → getTarget B s = .ok none →
      getTarget C s = .ok none → getTarget (.firstValid [A, B, C]) s = .ok none)
  ∧ (TTarget.volume TA s = .ok none →
      TTarget.volume (.anyOf [TA, TB, TC]) s = TTarget.volume (.anyOf [TB, TC]) s)
  ∧ (∀ e, TTarget.volume TA s = .failure e →
      TTarget.volume (.anyOf [TA, TB, TC]) s = .failure e)
  ∧ (TTarget.volume TA s = .ok none → TTarget.volume TB s = .ok none →
      TTarget.volume TC s = .ok none →
      TTarget.volume (.anyOf [TA, TB, TC]) s = .ok none) := by
  refine ⟨fun h1 => ?_, fun e h1 => ?_, fun h1 h2 h3 => ?_,
    fun h1 => ?_, fun e h1 => ?_, fun h1 h2 h3 => ?_⟩
  · simp [getTarget, firstValidGetTarget, h1]
  · simp [getTarget, firstValidGetTarget, h1]
  · simp [getTarget, firstValidGetTarget, h1, h2, h3]
  · simp [TTarget.volume, TTarget.volumeAny, h1]
  · simp [TTarget.volume, TTarget.volumeAny, h1]
  · simp [TTarget.volume, TTarget.volumeAny, h1, h2, h3]

/-- C1 witness: concrete composites over the sample state — a NotFound
head falls through, a Failure head short-circuits, and all-NotFound
resolves NotFound, in both embeddings. -/
theorem C1_witness :
    getTarget (.firstValid [.alwaysNone, .sinkIdx 5, .alwaysNone]) sampleState
      = getTarget (.firstValid [.sinkIdx 5, .alwaysNone]) sampleState
  ∧ getTarget (.firstValid [.alwaysError, .sinkIdx 5, .alwaysNone]) sampleState
      = .error "AlwaysError always errors"
  ∧ getTarget (.firstValid [.alwaysNone, .alwaysNone, .alwaysNone]) sampleState
      = .ok none
  ∧ TTarget.volume
      (.anyOf [.sinkWithProperty "media.role" "music", .staticSink 5, .staticSink 5])
      sampleState
      = TTarget.volume (.anyOf [.staticSink 5, .staticSink 5]) sampleState
  ∧ TTarget.volume (.anyOf [.staticSink 99, .staticSink 5, .staticSink 5]) sampleState
      = .failure "No such device"
  ∧ TTarget.volume
      (.anyOf [.sinkWithProperty "media.role" "music",
        .sinkWithProperty "media.role" "music",
        .sinkWithProperty "media.role" "music"]) sampleState
      = .ok none :=
  ⟨(C1_firstValid_order_and_failfast .alwaysNone (.sinkIdx 5) .alwaysNone
      (.staticSink 5) (.staticSink 5) (.staticSink 5) sampleState).1 rfl,
    (C1_firstValid_order_and_failfast .alwaysError (.sinkIdx 5) .alwaysNone
      (.staticSink 5) (.staticSink 5) (.staticSink 5) sampleState).2.1
      "AlwaysError always errors" rfl,
    (C1_firstValid_order_and_failfast .alwaysNone .alwaysNone .alwaysNone
      (.staticSink 5) (.staticSink 5) (.staticSink 5) sampleState).2.2.1 rfl rfl rfl,
    (C1_firstValid_order_and_failfast .alwaysNone .alwaysNone .alwaysNone
      (.sinkWithProperty "media.role" "music") (.staticSink 5) (.staticSink 5)
      sampleState).2.2.2.1 rfl,
    (C1_firstValid_order_and_failfast .alwaysNone .alwaysNone .alwaysNone
      (.staticSink 99) (.staticSink 5) (.staticSink 5) sampleState).2.2.2.2.1
      "No such device" rfl,
    (C1_firstValid_order_and_failfast .alwaysNone .alwaysNone .alwaysNone
      (.sinkWithProperty "media.role" "music") (.sinkWithProperty "media.role" "music")
      (.sinkWithProperty "media.role" "music") sampleState).2.2.2.2.2 rfl rfl rfl⟩

/-- C4 counterexample: a MuteToggle display update emitted by a flush
carries opcode 0x9A, not the claimed 0x8A — so 0x9A is not
inbound-only. -/
theorem C4_counterexample :
    flushValuesToBoard sampleState [(40, .muteToggle (.sinkIdx 5))]
      = ([(0x9A, 40, 1)], .ok ())
  ∧ (0x9A : Nat) ≠ 0x8A :=
  ⟨rfl, by decide⟩

/-- C4 amended: every outbound message that sets a discrete control
indicator (the MuteToggle and DefaultSelect display updates emitted by a
flush) uses opcode byte 0x9A (the BTN_DOWN opcode); inbound 0x9A messages
are ignored by handle_midi_message, and 0x8A (button up) is the inbound
opcode that triggers button dispatch. -/
theorem C4_indicator_opcode (s : AudioState) (btn : Nat) (g : Getter) :
    (∀ ms, pollControl s btn (.muteToggle g) = .ok ms →
      ∀ m ∈ ms, m.1 = BTN_DOWN)
  ∧ (∀ ms, pollControl s btn (.defaultSelect g) = .ok ms →
      ∀ m ∈ ms, m.1 = BTN_DOWN)
  ∧ (∀ bindings v, handleMidiMessage s bindings (BTN_DOWN, btn, v) = ([], [], .ok ()))
  ∧ (∀ bindings v, handleMidiMessage s bindings (BTN_UP, btn, v)
      = btnPress s bindings btn) := by
  refine ⟨?_, ?_, fun bindings v => ?_, fun bindings v => ?_⟩
  · intro ms h m hm
    rcases hgt : getTarget g s with e | o
    · rw [pollControl, hgt] at h
      cases h
    · rw [pollControl, hgt] at h
      cases o with
      | none =>
        cases h
        simp only [List.mem_singleton] at hm
        rw [hm]
      | some t =>
        cases h
        simp only [List.mem_singleton] at hm
        rw [hm]
  · intro ms h m hm
    rcases hgt : getTarget g s with e | o
    · rw [pollControl, hgt] at h
      cases h
    · rw [pollControl, hgt] at h
      cases o with
      | none =>
        cases h
        simp at hm
      | some t =>
        cases t with
        | deviceSink device =>
          rcases hdd : s.sinkDefaultDevice with e | dd
          · rw [hdd] at h
            cases h
          · rw [hdd] at h
            cases h
            simp only [List.mem_singleton] at hm
            rw [hm]
        | deviceSource device =>
          rcases hdd : s.sourceDefaultDevice with e | dd
          · rw [hdd] at h
            cases h
          · rw [hdd] at h
            cases h
            simp only [List.mem_singleton] at hm
            rw [hm]
        | appSink a =>
          cases h
  · simp [handleMidiMessage, BTN_DOWN, KNOB_UPDATE]
  · simp [handleMidiMessage, BTN_DOWN, BTN_UP, KNOB_UPDATE]

/-- C4 witness: the amended facts at the concrete flush of the
counterexample and at a concrete inbound pair of button messages. -/
theorem C4_witness :
    ((0x9A : Nat), 40, 1).1 = BTN_DOWN
  ∧ handleMidiMessage sampleState [] (BTN_DOWN, 40, 1) = ([], [], .ok ())
  ∧ handleMidiMessage sampleState [] (BTN_UP, 40, 1) = btnPress sampleState [] 40 :=
  ⟨(C4_indicator_opcode sampleState 40 (.sinkIdx 5)).1 [(0x9A, 40, 1)] rfl
      (0x9A, 40, 1) (by simp),
    (C4_indicator_opcode sampleState 40 (.sinkIdx 5)).2.2.1 [] 1,
    (C4_indicator_opcode sampleState 40 (.sinkIdx 5)).2.2.2 [] 1⟩

/-- C6: if the display poll of some control fails while every control
before it polled cleanly, the flush returns that Failure and the emitted
messages are exactly those of the clean prefix — nothing is emitted for
the failing control or for any control after it. -/
theorem C6_flush_abort_on_failure (s : AudioState) (l1 l2 : List (Nat × DBinding))
    (k : Nat) (b : DBinding) (e : Err) (m1 : List Midi)
    (hfail : pollControl s k b = .error e)
    (hok : flushValuesToBoard s l1 = (m1, .ok ())) :
    flushValuesToBoard s (l1 ++ (k, b) :: l2) = (m1, .error e) := by
  induction l1 generalizing m1 with
  | nil =>
    rw [flushValuesToBoard] at hok
    cases hok
    simp [flushValuesToBoard, hfail]
  | cons hd tl ih =>
    obtain ⟨c, bb⟩ := hd
    rcases hpc : pollControl s c bb with e2 | msgs
    · rw [flushValuesToBoard, hpc] at hok
      cases hok
    · rw [flushValuesToBoard, hpc] at hok
      have htl : flushValuesToBoard s tl
          = ((flushValuesToBoard s tl).1, (flushValuesToBoard s tl).2) := rfl
      have h2 : (flushValuesToBoard s tl).2 = .ok () := congrArg Prod.snd hok
      have h1 : m1 = msgs ++ (flushValuesToBoard s tl).1 :=
        (congrArg Prod.fst hok).symm
      have hrest := ih ((flushValuesToBoard s tl).1) (htl.trans (by rw [h2]))
      have goalEq : flushValuesToBoard s (((c, bb) :: tl) ++ (k, b) :: l2)
          = (msgs ++ (flushValuesToBoard s (tl ++ (k, b) :: l2)).1,
              (flushValuesToBoard s (tl ++ (k, b) :: l2)).2) := by
        simp only [List.cons_append, List.append_eq, flushValuesToBoard, hpc]
      rw [goalEq, hrest, h1]

/-- C6 witness: a three-entry table whose middle entry always errors — the
flush emits only the first control message and returns the Failure. -/
theorem C6_witness :
    flushValuesToBoard sampleState
      ([(11, .volumeControl (.sinkIdx 5))]
        ++ (13, .volumeControl .alwaysError) :: [(12, .volumeControl (.sinkIdx 5))])
      = ([(0xBA, 11, 63)], .error "AlwaysError always errors") :=
  C6_flush_abort_on_failure sampleState [(11, .volumeControl (.sinkIdx 5))]
    [(12, .volumeControl (.sinkIdx 5))] 13 (.volumeControl .alwaysError)
    "AlwaysError always errors" [(0xBA, 11, 63)] rfl rfl

/-- Renormalization of an integer bound: a distance of at most one unit
on the 0-127 integer scale is a distance of at most 1/127 after dividing
by 127. -/
theorem quantStep_of_natAbs (d k : Nat) (h : ((d : ℤ) - k).natAbs ≤ 1) :
    |(d : ℚ) / 127 - (k : ℚ) / 127| ≤ 1 / 127 := by
  have habs : |(d : ℚ) - (k : ℚ)| ≤ 1 := by
    have hcast : (d : ℚ) - (k : ℚ) = (((d : ℤ) - (k : ℤ) : ℤ) : ℚ) := by push_cast; ring
    rw [hcast, ← Int.cast_abs, Int.abs_eq_natAbs]
    exact_mod_cast h
  rw [div_sub_div_same, abs_div, abs_of_nonneg (by norm_num : (0 : ℚ) ≤ 127)]
  exact (div_le_div_iff_of_pos_right (by norm_num : (0 : ℚ) < 127)).mpr habs

/-- Exhaustive check of the knob sweep: for every knob position k the
write-then-display round trip through the f32 write path lands within one
unit of k on the 0-127 scale. -/
theorem knobSweep : ∀ k : Nat, k < 128 →
    ((dispVal (setVolumeWord (knobF32 k)) : ℤ) - k).natAbs ≤ 1 := by
  set_option maxRecDepth 8192 in decide

/-- C9 counterexample: the claim quantifies over every normalized volume
v in the unit interval, but the 65535 write multiplier against the 65536
display divisor plus the two truncations can lose slightly more than one
quantization step.  The f32 value 8455000/2^25 (about 0.25198, shown
representable by the rounding model fixing it) written through
Target::set_volume on the sample sink stores the word 16513 on both
channels; the display renormalization of the unchanged channel average
reads back 31, yet 31/127 differs from v by more than 1/127. -/
theorem C9_counterexample :
    f32ofRatio 8455000 (2 ^ 25) = (8455000, 25)
  ∧ (0 ≤ dyadicVal (8455000, 25) ∧ dyadicVal (8455000, 25) ≤ 1)
  ∧ TTarget.setVolume (.staticSink 5) sampleState (8455000, 25)
      = ([.setSinkDeviceVolume 5 [16513, 16513]], .ok (some ()))
  ∧ dispVal (cvAvg [16513, 16513]) = 31
  ∧ ¬ |(31 : ℚ) / 127 - dyadicVal (8455000, 25)| ≤ 1 / 127 := by
  refine ⟨by decide, ⟨?_, ?_⟩, rfl, by decide, ?_⟩
  · simp only [dyadicVal]
    positivity
  · simp only [dyadicVal]
    norm_num
  · simp only [dyadicVal, not_le]
    have h : (1 : ℚ) / 127 < (8455000 : ℚ) / 2 ^ 25 - 31 / 127 := by norm_num
    calc (1 : ℚ) / 127 < (8455000 : ℚ) / 2 ^ 25 - 31 / 127 := h
      _ ≤ |(8455000 : ℚ) / 2 ^ 25 - 31 / 127| := le_abs_self _
      _ = |(31 : ℚ) / 127 - (8455000 : ℚ) / 2 ^ 25| := abs_sub_comm _ _

/-- C9 amended: for every knob value k/127 (the inputs the claim singles
out), writing it through the set_volume f32 write path and reading the
displayed channel-average back on the 0-127 scale lands within one unit
of k, i.e. within one quantization step (1/127) of k/127.  For arbitrary
f32 volumes in the unit interval the bound fails (see the
counterexample), so the claim is restricted to the knob grid. -/
theorem C9_knob_roundtrip (k : Nat) (hk : k ≤ 127) :
    ((dispVal (setVolumeWord (knobF32 k)) : ℤ) - k).natAbs ≤ 1
  ∧ |(dispVal (setVolumeWord (knobF32 k)) : ℚ) / 127 - (k : ℚ) / 127| ≤ 1 / 127 :=
  have h := knobSweep k (Nat.lt_succ_of_le hk)
  ⟨h, quantStep_of_natAbs _ _ h⟩

/-- C9 witness: the amended round trip at knob position 126 (the worst
case: the display reads back 125, exactly one step away). -/
theorem C9_witness :
    ((dispVal (setVolumeWord (knobF32 126)) : ℤ) - (126 : Nat)).natAbs ≤ 1
  ∧ |(dispVal (setVolumeWord (knobF32 126)) : ℚ) / 127 - ((126 : Nat) : ℚ) / 127|
      ≤ 1 / 127 :=
  C9_knob_roundtrip 126 (by decide)

/-- C10: every Target operation on the All variant hits the todo
placeholder and panics, for every child list, state and volume argument —
the variant exists in the data model but no operation implements it. -/
theorem C10_all_variant_panics (ts : List TTarget) (s : AudioState) (v : Nat × Nat) :
    TTarget.volume (.allOf ts) s = .panicked
  ∧ (TTarget.setVolume (.allOf ts) s v).2 = .panicked
  ∧ TTarget.muted (.allOf ts) s = .panicked
  ∧ (TTarget.toggleMuted (.allOf ts) s).2 = .panicked :=
  ⟨rfl, rfl, rfl, rfl⟩

end Dreamdeck
